import Mathlib

/-!
Shallow embedding of `src/app.py` (VaultFeed): a Flask app with two handlers,
`news_feed` (GET /api/news) and `fetch_article` (GET /api/article).

Network and library effects are inputs to the embedded handlers:
* the outcome of `feedparser.parse` is an input of `news_feed`;
* the outcome of the newspaper3k primary attempt and of the
  readability/BeautifulSoup fallback attempt are inputs of `fetch_article`.
Python strings are Lean `String`s; `str.strip()`, `str.split(sep)`,
slicing and `int(...)` are embedded as the structurally recursive
`pyStrip`, `pySplit`, `pyTake`/`pySlice` and `pyInt` below, and Python's
truthiness of strings/lists is tested as (non-)emptiness.
-/

namespace VaultFeed

set_option maxRecDepth 4000

/-- Python's default whitespace for `str.strip()` (the ASCII part). -/
def isPyWs (c : Char) : Bool :=
  c == ' ' || c == '\t' || c == '\n' || c == '\r' || c == '\x0b' || c == '\x0c'

/-- Python `s.strip()`: remove leading and trailing whitespace. -/
def pyStrip (s : String) : String :=
  ⟨((s.data.dropWhile isPyWs).reverse.dropWhile isPyWs).reverse⟩

/-- Python character slicing `s[:n]` for `n ≥ 0`. -/
def pyTake (s : String) (n : Nat) : String :=
  ⟨s.data.take n⟩

/-- Python `s.startswith(pre)`. -/
def pyStartsWith (s pre : String) : Bool :=
  pre.data.isPrefixOf s.data

/-- Helper for `pySplit`: scans for the next separator occurrence, `acc`
holding the current segment reversed.  `fuel` bounds the remaining length;
the `0` case is unreachable when started with `fuel = l.length` and a
non-empty separator. -/
def pySplitAux (sep : List Char) : Nat → List Char → List Char → List (List Char)
  | _, [], acc => [acc.reverse]
  | 0, l, acc => [acc.reverse ++ l]
  | fuel + 1, c :: rest, acc =>
    if sep.isPrefixOf (c :: rest) then
      acc.reverse :: pySplitAux sep fuel ((c :: rest).drop sep.length) []
    else
      pySplitAux sep fuel rest (c :: acc)

/-- Python `s.split(sep)` for a non-empty separator: split on non-overlapping
occurrences, left to right, keeping empty segments. -/
def pySplit (s sep : String) : List String :=
  (pySplitAux sep.data s.data.length s.data []).map fun l => ⟨l⟩

/-- Accumulator run over decimal digits; `none` at the first non-digit. -/
def pyDigitsAux (acc : Nat) : List Char → Option Nat
  | [] => some acc
  | c :: cs => if c.isDigit then pyDigitsAux (10 * acc + (c.toNat - 48)) cs else none

/-- Python `int(s)`: an optionally signed non-empty run of decimal digits,
raising `ValueError` (here: `none`) on anything else. -/
def pyInt (s : String) : Option Int :=
  match s.data with
  | '-' :: cs => if cs = [] then none else (pyDigitsAux 0 cs).map fun n => -(n : Int)
  | '+' :: cs => if cs = [] then none else (pyDigitsAux 0 cs).map fun n => (n : Int)
  | cs => if cs = [] then none else (pyDigitsAux 0 cs).map fun n => (n : Int)

/-- Python list slicing `l[:n]`: for `n ≥ 0` the first `n` elements; for
`n < 0` all elements up to index `len(l) + n` (empty when that is ≤ 0). -/
def pySlice (l : List α) (n : Int) : List α :=
  if 0 ≤ n then l.take n.toNat else l.take ((l.length : Int) + n).toNat

/-! ## Feed side (`news_feed`, src/app.py lines 18–86) -/

/-- A `feedparser` entry as the handler reads it: each field is `none` when
the attribute is absent (`hasattr`/`getattr` default).  `content` holds the
`.get("value", "")` of each content item (`some []` = attribute present but
empty, which is falsy in Python); `media_thumbnail`/`media_content` hold the
`.get("url", "")` of each item. -/
structure FPEntry where
  title : Option String
  link : Option String
  published : Option String
  updated : Option String
  created : Option String
  content : Option (List String)
  summary : Option String
  description : Option String
  media_thumbnail : Option (List String)
  media_content : Option (List String)
  author : Option String
deriving DecidableEq, Repr

/-- One normalized item of the /api/news response. -/
structure FeedItem where
  title : String
  link : String
  published : String
  description : String
  thumbnail : String
  author : String
deriving DecidableEq, Repr

/-- The `for attr in ("published", "updated", "created")` loop: first value
that is present and truthy (non-empty), else `""`. -/
def firstTruthy : List (Option String) → String
  | [] => ""
  | none :: rest => firstTruthy rest
  | some v :: rest => if v = "" then firstTruthy rest else v

/-- Lines 51–56: published date from `published`, `updated`, `created`. -/
def entryPublished (e : FPEntry) : String :=
  firstTruthy [e.published, e.updated, e.created]

/-- Lines 58–65: `content[0]["value"]` if `content` present and non-empty,
elif `summary` present then `summary or ""`, elif `description` present then
`description or ""`, else `""`; truncated to 2000 characters. -/
def entryDescription (e : FPEntry) : String :=
  match e.content with
  | some (v :: _) => pyTake v 2000
  | _ =>
    match e.summary with
    | some s => pyTake s 2000
    | none =>
      match e.description with
      | some d => pyTake d 2000
      | none => ""

/-- Lines 67–72: url of the first `media_thumbnail` item, elif first
`media_content` item, else `""`. -/
def entryThumbnail (e : FPEntry) : String :=
  match e.media_thumbnail with
  | some (u :: _) => u
  | _ =>
    match e.media_content with
    | some (u :: _) => u
    | _ => ""

/-- Lines 46–84: one entry mapped to a normalized item. -/
def entryToItem (e : FPEntry) : FeedItem :=
  { title := e.title.getD "(no title)"
    link := e.link.getD ""
    published := entryPublished e
    description := entryDescription e
    thumbnail := entryThumbnail e
    author := e.author.getD "" }

/-- Result of `feedparser.parse`: `bozo` flag, `bozo_exception` (stringified),
`parsed.feed.title`, and the entry list. -/
structure ParsedFeed where
  bozo : Bool
  bozo_exception : Option String
  feed_title : Option String
  entries : List FPEntry
deriving DecidableEq, Repr

/-- Outcome of the /api/news handler.  `exn` is an exception escaping the
handler itself (neither the 200 nor the 502 shape): the only way this happens
in the source is `int(request.args.get("limit", 20))` raising before the
`try` block. -/
inductive FeedResponse
  | ok (items : List FeedItem) (feed_title : String)
  | err (error : String)
  | exn
deriving DecidableEq, Repr

/-- Line 29: `request.args.get("limit", 20)` is the raw query string when the
parameter is present and the integer 20 otherwise; `int(...)` of that. -/
def limitOf : Option String → Option Int
  | none => some 20
  | some s => pyInt s

/-- The /api/news handler (lines 18–86).  The feed url only selects which
document is parsed, so it is folded into `parseResult`, the outcome of
`feedparser.parse` (`Except.error` = the call raised). -/
def news_feed (limitParam : Option String)
    (parseResult : Except String ParsedFeed) : FeedResponse :=
  match limitOf limitParam with
  | none => .exn
  | some l =>
    let limit := min l 50
    match parseResult with
    | .error e => .err e
    | .ok parsed =>
      if parsed.bozo ∧ parsed.entries = [] then
        .err ("Feed error: " ++ parsed.bozo_exception.getD "Unknown parse error")
      else
        .ok ((pySlice parsed.entries limit).map entryToItem) (parsed.feed_title.getD "")

/-- The claim's description precedence (C7): the first present source among
rich content body, summary, description. -/
def chosenSource (e : FPEntry) : Option String :=
  match e.content with
  | some (v :: _) => some v
  | _ =>
    match e.summary with
    | some s => some s
    | none => e.description

/-- An entry with every attribute absent. -/
def emptyEntry : FPEntry :=
  ⟨none, none, none, none, none, none, none, none, none, none, none⟩

/-- A clean (non-bozo) parse result with 30 entries. -/
def parsed30 : ParsedFeed := ⟨false, none, some "T", List.replicate 30 emptyEntry⟩

/-- A bozo parse result that still yielded one entry. -/
def bozoParsed1 : ParsedFeed := ⟨true, some "boom", none, [emptyEntry]⟩

/-- A 2001-character description source. -/
def longStr : String := String.mk (List.replicate 2001 'a')

/-- An entry whose rich content body is `longStr`. -/
def longEntry : FPEntry := { emptyEntry with content := some [longStr] }

/-! ## Article side (`fetch_article`, src/app.py lines 89–186) -/

/-- The value of `article.publish_date` when truthy: a datetime (whose
`.isoformat()` yields `iso`), or a truthy non-datetime value on which
`.isoformat()` raises `AttributeError` (newspaper3k can yield a plain
string here). -/
inductive PubVal
  | date (iso : String)
  | bad
deriving DecidableEq, Repr

/-- The attributes of a parsed newspaper3k `Article` as the handler reads
them in lines 128–132; `none` models a falsy (`None`/empty) attribute. -/
structure ArticleAttrs where
  text : Option String
  title : Option String
  authors : Option (List String)
  publish_date : Option PubVal
  top_image : Option String
deriving DecidableEq, Repr

/-- Outcome of the primary attempt's fetch/parse stage: `fail` is an
exception raised in `Article(...)`, `requests.get(...)`, `set_html` or
`parse()` (lines 124–126), before any of the field assignments. -/
inductive PrimaryResult
  | fail
  | parsed (a : ArticleAttrs)
deriving DecidableEq, Repr

/-- The handler's local variables `text`, `html_content`, `title`,
`authors`, `publish_date`, `top_image` (lines 115–120). -/
structure ArtState where
  text : String
  html_content : String
  title : String
  authors : List String
  publish_date : String
  top_image : String
deriving DecidableEq, Repr

/-- Lines 115–120: all fields initialized empty. -/
def initState : ArtState := ⟨"", "", "", [], "", ""⟩

/-- Lines 122–136: the primary attempt.  The assignments of lines 128–132
execute in order inside the `try`; when `article.publish_date` is a truthy
non-datetime, `.isoformat()` raises on line 131 *after* `text`, `title` and
`authors` were already rebound, and the bare `except` keeps that partial
state. -/
def runPrimary : PrimaryResult → ArtState
  | .fail => initState
  | .parsed a =>
    let s := { initState with
      text := pyStrip (a.text.getD "")
      title := a.title.getD ""
      authors := a.authors.getD [] }
    match a.publish_date with
    | some .bad => s
    | some (.date iso) => { s with publish_date := iso, top_image := a.top_image.getD "" }
    | none => { s with publish_date := "", top_image := a.top_image.getD "" }

/-- Whether an exception was raised (and caught) inside the primary `try`
block: either before any assignment (`fail`) or at the
`publish_date.isoformat()` call of line 131. -/
def primaryRaised : PrimaryResult → Bool
  | .fail => true
  | .parsed a =>
    match a.publish_date with
    | some .bad => true
    | _ => false

/-- An `img` element of the cleaned fallback fragment; `src` is `none` when
the element has no src attribute. -/
structure ImgTag where
  src : Option String
deriving DecidableEq, Repr

/-- The BeautifulSoup value after the decompose loop of lines 150–152:
`text` is `soup.get_text(separator="\n\n")` before `.strip()`, `html` is
`str(soup)`, `imgs` are the remaining `img` elements in document order. -/
structure Soup where
  text : String
  html : String
  imgs : List ImgTag
deriving DecidableEq, Repr

/-- What the readability fallback produced when it did not raise:
`doc.short_title()` and the cleaned soup. -/
structure FallbackData where
  readable_title : String
  soup : Soup
deriving DecidableEq, Repr

/-- Outcome of the fallback attempt's fetch/parse stage; `fail` is an
`ImportError` or any other exception (lines 168–171). -/
inductive FallbackResult
  | fail
  | ok (d : FallbackData)
deriving DecidableEq, Repr

/-- Line 163: `soup.find("img", src=True)` — the first `img` element that
has a src attribute, and that element's src. -/
def findImgSrc (imgs : List ImgTag) : Option String :=
  (imgs.find? fun i => i.src.isSome).bind fun i => i.src

/-- Lines 159–160: adopt `doc.short_title()` only when `title` is empty. -/
def adoptTitle (d : FallbackData) (s : ArtState) : ArtState :=
  if s.title = "" then { s with title := d.readable_title } else s

/-- Lines 162–167: when `top_image` is empty, look at the first img element
that has a src attribute; adopt its src only when it starts with "http". -/
def adoptImage (d : FallbackData) (s : ArtState) : ArtState :=
  if s.top_image = "" then
    match findImgSrc d.soup.imgs with
    | some src => if pyStartsWith src "http" then { s with top_image := src } else s
    | none => s
  else s

/-- Lines 140–171: the fallback body, given the state left by the primary
attempt.  On success, the fallback text replaces `text` only when strictly
longer (lines 156–158); then `html_content` is adopted, `title` only if
still empty, and possibly `top_image`. -/
def runFallback (s : ArtState) : FallbackResult → ArtState
  | .fail => s
  | .ok d =>
    let fallback_text := pyStrip d.soup.text
    if fallback_text.length > s.text.length then
      adoptImage d (adoptTitle d { s with text := fallback_text, html_content := d.soup.html })
    else s

/-- Line 139 + lines 140–171: the fallback runs iff the primary text is
shorter than 100 characters. -/
def afterStrategies (prim : PrimaryResult) (fb : FallbackResult) : ArtState :=
  let s := runPrimary prim
  if s.text.length < 100 then runFallback s fb else s

/-- Line 175: `[p.strip() for p in text.split("\n\n") if p.strip()]`. -/
def synthParagraphs (text : String) : List String :=
  (pySplit text "\n\n").filterMap fun p => if pyStrip p = "" then none else some (pyStrip p)

/-- Lines 175–176: wrap each paragraph and concatenate with no separator. -/
def build_html (text : String) : String :=
  String.join ((synthParagraphs text).map fun p => "<p>" ++ p ++ "</p>")

/-- Modelled from the spec sentence of C8, for comparison with `build_html`:
split the text on blank-line boundaries, discard empty/whitespace-only
segments, wrap each *surviving segment* (as split, untrimmed) in a paragraph
tag, concatenate with no separator. -/
def claimed_build_html (text : String) : String :=
  String.join (((pySplit text "\n\n").filter fun p => ¬ pyStrip p = "").map
    fun p => "<p>" ++ p ++ "</p>")

/-- The seven fields of the /api/article 200 response (lines 178–186). -/
structure ArticleResult where
  title : String
  authors : List String
  publish_date : String
  top_image : String
  text : String
  html : String
  source_url : String
deriving DecidableEq, Repr

/-- Outcome of the /api/article handler: 400 with message, or 200. -/
inductive ArticleResponse
  | badRequest (error : String)
  | ok (r : ArticleResult)
deriving DecidableEq, Repr

/-- The /api/article handler (lines 89–186).  `urlParam` is
`request.args.get("url", "")`; the two strategy outcomes are inputs. -/
def fetch_article (urlParam : Option String) (prim : PrimaryResult)
    (fb : FallbackResult) : ArticleResponse :=
  let url := pyStrip (urlParam.getD "")
  if url = "" then .badRequest "url parameter is required"
  else
    let s := afterStrategies prim fb
    let html := if ¬ s.text = "" ∧ s.html_content = "" then build_html s.text
      else s.html_content
    .ok { title := s.title, authors := s.authors, publish_date := s.publish_date,
          top_image := s.top_image, text := s.text, html := html,
          source_url := url }

/-! ## Concrete article-side sample inputs -/

/-- A fallback fragment whose first img-with-src has a non-http src and whose
second img has an http src. -/
def relImgSoup : Soup :=
  ⟨"Recovered body text", "<div>recovered</div>",
    [⟨some "/relative.png"⟩, ⟨some "http://img.example/a.png"⟩]⟩

/-- Fallback data built on `relImgSoup`. -/
def relImgFallback : FallbackData := ⟨"Fallback Title", relImgSoup⟩

/-- Primary attributes whose publish date is a truthy non-datetime, so the
`isoformat()` call raises after text, title and authors were assigned. -/
def midFailAttrs : ArticleAttrs :=
  ⟨some "A reasonably long extracted body.", some "A Title", some ["Alice"],
    some PubVal.bad, some "http://img.example/i.png"⟩

/-- Primary attributes with a short two-paragraph text whose first paragraph
has a trailing space before the blank line. -/
def shortAttrs : ArticleAttrs := ⟨some "a \n\nb", none, none, none, none⟩

/-! ## Helper lemmas about the article pipeline -/

/-- The primary attempt never sets `html_content`. -/
theorem runPrimary_html_content (prim : PrimaryResult) :
    (runPrimary prim).html_content = "" := by
  cases prim with
  | fail => rfl
  | parsed a =>
    rcases hpd : a.publish_date with _ | pv
    · simp [runPrimary, hpd, initState]
    · cases pv <;> simp [runPrimary, hpd, initState]

/-- `adoptTitle` changes no field but `title`. -/
theorem adoptTitle_fields (d : FallbackData) (s : ArtState) :
    (adoptTitle d s).text = s.text ∧ (adoptTitle d s).html_content = s.html_content ∧
    (adoptTitle d s).top_image = s.top_image := by
  unfold adoptTitle
  split <;> exact ⟨rfl, rfl, rfl⟩

/-- `adoptImage` changes no field but `top_image`. -/
theorem adoptImage_fields (d : FallbackData) (s : ArtState) :
    (adoptImage d s).text = s.text ∧ (adoptImage d s).html_content = s.html_content ∧
    (adoptImage d s).title = s.title := by
  unfold adoptImage
  split
  · split
    · split <;> exact ⟨rfl, rfl, rfl⟩
    · exact ⟨rfl, rfl, rfl⟩
  · exact ⟨rfl, rfl, rfl⟩

/-- The `top_image` computed by `adoptImage` on a state with no image. -/
theorem adoptImage_top_image (d : FallbackData) (s : ArtState)
    (himg : s.top_image = "") :
    (adoptImage d s).top_image =
      match findImgSrc d.soup.imgs with
      | some src => if pyStartsWith src "http" then src else ""
      | none => "" := by
  unfold adoptImage
  rw [if_pos himg]
  rcases hf : findImgSrc d.soup.imgs with _ | src
  · simp only [hf]
    exact himg
  · simp only [hf]
    split
    · rfl
    · exact himg

/-- The text left by a winning fallback. -/
theorem runFallback_text_win (s : ArtState) (d : FallbackData)
    (hwin : s.text.length < (pyStrip d.soup.text).length) :
    (runFallback s (FallbackResult.ok d)).text = pyStrip d.soup.text := by
  simp only [runFallback, gt_iff_lt]
  rw [if_pos hwin, (adoptImage_fields _ _).1, (adoptTitle_fields _ _).1]

/-- The html adopted by a winning fallback. -/
theorem runFallback_html_win (s : ArtState) (d : FallbackData)
    (hwin : s.text.length < (pyStrip d.soup.text).length) :
    (runFallback s (FallbackResult.ok d)).html_content = d.soup.html := by
  simp only [runFallback, gt_iff_lt]
  rw [if_pos hwin, (adoptImage_fields _ _).2.1, (adoptTitle_fields _ _).2.1]

/-- A losing fallback leaves the state unchanged. -/
theorem runFallback_lose (s : ArtState) (d : FallbackData)
    (hle : (pyStrip d.soup.text).length ≤ s.text.length) :
    runFallback s (FallbackResult.ok d) = s := by
  simp only [runFallback, gt_iff_lt]
  rw [if_neg (not_lt.mpr hle)]

/-- The `top_image` left by a winning fallback whose input had no image. -/
theorem runFallback_top_image_win (s : ArtState) (d : FallbackData)
    (hwin : s.text.length < (pyStrip d.soup.text).length)
    (himg : s.top_image = "") :
    (runFallback s (FallbackResult.ok d)).top_image =
      match findImgSrc d.soup.imgs with
      | some src => if pyStartsWith src "http" then src else ""
      | none => "" := by
  simp only [runFallback, gt_iff_lt]
  rw [if_pos hwin, adoptImage_top_image]
  rw [(adoptTitle_fields _ _).2.2]
  exact himg

/-- If both strategies left no text, no HTML representation was adopted. -/
theorem afterStrategies_text_empty (prim : PrimaryResult) (fb : FallbackResult)
    (h : (afterStrategies prim fb).text = "") :
    (afterStrategies prim fb).html_content = "" := by
  unfold afterStrategies at h ⊢
  by_cases hlt : (runPrimary prim).text.length < 100
  · rw [if_pos hlt] at h ⊢
    cases fb with
    | fail => exact runPrimary_html_content prim
    | ok d =>
      by_cases hwin : (runPrimary prim).text.length < (pyStrip d.soup.text).length
      · exfalso
        rw [runFallback_text_win _ _ hwin] at h
        rw [h] at hwin
        simp at hwin
      · rw [runFallback_lose _ _ (not_lt.mp hwin)]
        exact runPrimary_html_content prim
  · rw [if_neg hlt]
    exact runPrimary_html_content prim

/-- The text left by the two-strategy pipeline, by cases. -/
theorem afterStrategies_text (prim : PrimaryResult) (fb : FallbackResult) :
    (100 ≤ (runPrimary prim).text.length →
      (afterStrategies prim fb).text = (runPrimary prim).text) ∧
    (∀ d, fb = FallbackResult.ok d → (runPrimary prim).text.length < 100 →
      ((runPrimary prim).text.length < (pyStrip d.soup.text).length →
        (afterStrategies prim fb).text = pyStrip d.soup.text) ∧
      ((pyStrip d.soup.text).length ≤ (runPrimary prim).text.length →
        (afterStrategies prim fb).text = (runPrimary prim).text)) ∧
    (fb = FallbackResult.fail → (afterStrategies prim fb).text = (runPrimary prim).text) := by
  refine ⟨?_, ?_, ?_⟩
  · intro h100
    unfold afterStrategies
    rw [if_neg (not_lt.mpr h100)]
  · rintro d rfl hlt
    unfold afterStrategies
    rw [if_pos hlt]
    constructor
    · intro hwin
      exact runFallback_text_win _ _ hwin
    · intro hle
      rw [runFallback_lose _ _ hle]
  · rintro rfl
    unfold afterStrategies
    by_cases hlt : (runPrimary prim).text.length < 100
    · rw [if_pos hlt]
      rfl
    · rw [if_neg hlt]

/-- With a non-blank url the handler returns the 200 record built from the
two-strategy state (lines 178–186). -/
theorem fetch_article_ok (u : Option String) (prim : PrimaryResult) (fb : FallbackResult)
    (hu : ¬ pyStrip (u.getD "") = "") :
    fetch_article u prim fb =
      ArticleResponse.ok
        { title := (afterStrategies prim fb).title
          authors := (afterStrategies prim fb).authors
          publish_date := (afterStrategies prim fb).publish_date
          top_image := (afterStrategies prim fb).top_image
          text := (afterStrategies prim fb).text
          html := if ¬ (afterStrategies prim fb).text = "" ∧
              (afterStrategies prim fb).html_content = ""
            then build_html (afterStrategies prim fb).text
            else (afterStrategies prim fb).html_content
          source_url := pyStrip (u.getD "") } := by
  simp only [fetch_article]
  rw [if_neg hu]

/-! ## Theorems for the feed claims -/

/-- C1 counterexample: with `limit=-1` (which is ≤ 0) and a clean feed of 30
entries, the response contains 29 items — more than the 20 the claim allows:
Python's negative slice keeps all but the last entry. -/
theorem c1_counterexample :
    news_feed (some "-1") (Except.ok parsed30) =
      FeedResponse.ok (List.replicate 29 (entryToItem emptyEntry)) "T" ∧
    ¬ (List.replicate 29 (entryToItem emptyEntry)).length ≤ 20 := by
  constructor
  · decide
  · decide

/-- C1 (amended): for `limit` > 50 the response has at most 50 items; for
`limit` absent at most 20; for `limit` = 0 exactly zero items; for `limit`
< 0 the handler slices all but the last `|limit|` entries, yielding
`max 0 (entryCount + limit)` items, which can exceed 20. -/
theorem c1_amended_limit_bounds (lp : Option String) (pr : ParsedFeed) (l : Int)
    (hl : limitOf lp = some l)
    (hb : ¬(pr.bozo ∧ pr.entries = [])) :
    ∃ items ft, news_feed lp (Except.ok pr) = FeedResponse.ok items ft ∧
      (50 < l → items.length ≤ 50) ∧
      (lp = none → items.length ≤ 20) ∧
      (l = 0 → items = []) ∧
      (l < 0 → items.length = ((pr.entries.length : Int) + l).toNat) := by
  refine ⟨(pySlice pr.entries (min l 50)).map entryToItem, pr.feed_title.getD "",
    ?_, ?_, ?_, ?_, ?_⟩
  · simp [news_feed, hl, hb]
  · intro h50
    have hm : min l 50 = 50 := min_eq_right (by omega)
    simp [pySlice, hm, List.length_take]
  · intro hnone
    subst hnone
    simp [limitOf] at hl
    subst hl
    simp [pySlice, List.length_take]
  · intro h0
    subst h0
    simp [pySlice]
  · intro hneg
    have hm : min l 50 = l := min_eq_left (by omega)
    simp [pySlice, hm, List.length_take, hneg, not_le.mpr hneg]
    omega

/-- C1 witness: absent limit on the clean 30-entry feed. -/
theorem c1_amended_limit_bounds_witness :
    ∃ items ft, news_feed none (Except.ok parsed30) = FeedResponse.ok items ft ∧
      (50 < (20 : Int) → items.length ≤ 50) ∧
      ((none : Option String) = none → items.length ≤ 20) ∧
      ((20 : Int) = 0 → items = []) ∧
      ((20 : Int) < 0 → items.length = ((parsed30.entries.length : Int) + 20).toNat) :=
  c1_amended_limit_bounds none parsed30 20 rfl (by decide)

/-- C6: when the parser reports a structural problem (`bozo`) but still
yields at least one entry, the handler returns the 200 shape with the
normalized (limited) entries; when it yields zero entries, the handler
returns the 502 error shape with a human-readable message. -/
theorem c6_bozo_feed (lp : Option String) (l : Int) (pr : ParsedFeed)
    (hl : limitOf lp = some l) (hb : pr.bozo = true) :
    (pr.entries ≠ [] →
      news_feed lp (Except.ok pr) =
        FeedResponse.ok ((pySlice pr.entries (min l 50)).map entryToItem)
          (pr.feed_title.getD "")) ∧
    (pr.entries = [] →
      news_feed lp (Except.ok pr) =
        FeedResponse.err
          ("Feed error: " ++ pr.bozo_exception.getD "Unknown parse error")) := by
  constructor
  · intro hne
    simp [news_feed, hl, hb, hne]
  · intro he
    simp [news_feed, hl, hb, he]

/-- C6 witness: a bozo parse with one entry yields the 200 shape. -/
theorem c6_bozo_feed_witness :
    bozoParsed1.entries ≠ [] ∧
    news_feed none (Except.ok bozoParsed1) =
      FeedResponse.ok [entryToItem emptyEntry] "" := by
  have hne : bozoParsed1.entries ≠ [] := by simp [bozoParsed1]
  have h := (c6_bozo_feed none 20 bozoParsed1 rfl rfl).1 hne
  exact ⟨hne, by rw [h]; rfl⟩

/-- C7: the normalized description is the first 2000 characters of the first
present source in the order rich content body, summary, description (empty
when none is present); a chosen source longer than 2000 characters yields
exactly its first 2000 characters. -/
theorem c7_description_precedence (e : FPEntry) :
    entryDescription e = pyTake ((chosenSource e).getD "") 2000 ∧
    (∀ v, chosenSource e = some v → 2000 < v.length →
      entryDescription e = pyTake v 2000 ∧ (entryDescription e).length = 2000) := by
  have hmain : entryDescription e = pyTake ((chosenSource e).getD "") 2000 := by
    rcases hc : e.content with _ | ⟨_ | ⟨v, vs⟩⟩
    · rcases hs : e.summary with _ | s
      · rcases hd : e.description with _ | d
        · simp [entryDescription, chosenSource, hc, hs, hd]
          decide
        · simp [entryDescription, chosenSource, hc, hs, hd]
      · simp [entryDescription, chosenSource, hc, hs]
    · rcases hs : e.summary with _ | s
      · rcases hd : e.description with _ | d
        · simp [entryDescription, chosenSource, hc, hs, hd]
          decide
        · simp [entryDescription, chosenSource, hc, hs, hd]
      · simp [entryDescription, chosenSource, hc, hs]
    · simp [entryDescription, chosenSource, hc]
  refine ⟨hmain, ?_⟩
  intro v hv hlen
  have heq : entryDescription e = pyTake v 2000 := by
    rw [hmain, hv]; rfl
  refine ⟨heq, ?_⟩
  rw [heq]
  have hlen' : 2000 < v.data.length := hlen
  show (v.data.take 2000).length = 2000
  rw [List.length_take]
  omega

/-- C7 witness: a 2001-character content body is truncated to exactly
2000 characters. -/
theorem c7_description_precedence_witness :
    chosenSource longEntry = some longStr ∧ 2000 < longStr.length ∧
    (entryDescription longEntry).length = 2000 := by
  have hlen : 2000 < longStr.length := by
    show 2000 < (List.replicate 2001 'a').length
    rw [List.length_replicate]
    omega
  have h := (c7_description_precedence longEntry).2 longStr rfl hlen
  exact ⟨rfl, hlen, h.2⟩

/-- C10: a non-numeric `limit` query string such as "abc" makes the integer
conversion on line 29 raise before any clamping, defaulting or parsing, so
the handler produces neither the 200 feed shape nor the 502 error shape. -/
theorem c10_nonnumeric_limit (pr : Except String ParsedFeed) :
    news_feed (some "abc") pr = FeedResponse.exn ∧
    (∀ items ft, news_feed (some "abc") pr ≠ FeedResponse.ok items ft) ∧
    (∀ msg, news_feed (some "abc") pr ≠ FeedResponse.err msg) := by
  have hl : limitOf (some "abc") = none := by decide
  have h : news_feed (some "abc") pr = FeedResponse.exn := by
    simp [news_feed, hl]
  refine ⟨h, ?_, ?_⟩
  · intro items ft
    rw [h]
    simp
  · intro msg
    rw [h]
    simp

/-- C10 witness: concrete parse outcome, same escape. -/
theorem c10_nonnumeric_limit_witness :
    news_feed (some "abc") (Except.error "boom") = FeedResponse.exn ∧
    (∀ items ft, news_feed (some "abc") (Except.error "boom") ≠ FeedResponse.ok items ft) ∧
    (∀ msg, news_feed (some "abc") (Except.error "boom") ≠ FeedResponse.err msg) :=
  c10_nonnumeric_limit (Except.error "boom")

/-! ## Theorems for the article claims -/

/-- C5: the article endpoint returns the 400 error with the exact message
"url parameter is required" iff the url parameter is absent or blank after
trimming; every other input yields a 200 response carrying all seven result
fields, and when both strategies produced nothing those fields are the empty
defaults. -/
theorem c5_url_validation (u : Option String) (prim : PrimaryResult) (fb : FallbackResult) :
    (fetch_article u prim fb = ArticleResponse.badRequest "url parameter is required" ↔
      pyStrip (u.getD "") = "") ∧
    (¬ pyStrip (u.getD "") = "" → ∃ r, fetch_article u prim fb = ArticleResponse.ok r) ∧
    (¬ pyStrip (u.getD "") = "" →
      fetch_article u PrimaryResult.fail FallbackResult.fail =
        ArticleResponse.ok ⟨"", [], "", "", "", "", pyStrip (u.getD "")⟩) := by
  by_cases hu : pyStrip (u.getD "") = ""
  · have hbr : fetch_article u prim fb =
        ArticleResponse.badRequest "url parameter is required" := by
      simp only [fetch_article]
      rw [if_pos hu]
    exact ⟨⟨fun _ => hu, fun _ => hbr⟩, fun h => absurd hu h, fun h => absurd hu h⟩
  · have hok := fetch_article_ok u prim fb hu
    refine ⟨⟨fun h => ?_, fun h => absurd h hu⟩, fun _ => ⟨_, hok⟩, fun _ => ?_⟩
    · rw [hok] at h
      exact absurd h (by simp)
    · rw [fetch_article_ok u PrimaryResult.fail FallbackResult.fail hu]
      rfl

/-- C5 witness: a blank url is rejected with the exact message, and a
non-blank url with two failed strategies yields the all-empty 200 record. -/
theorem c5_url_validation_witness :
    (fetch_article (some "http://e.com") PrimaryResult.fail FallbackResult.fail =
        ArticleResponse.badRequest "url parameter is required" ↔
      pyStrip ((some "http://e.com").getD "") = "") ∧
    (¬ pyStrip ((some "http://e.com").getD "") = "" →
      ∃ r, fetch_article (some "http://e.com") PrimaryResult.fail FallbackResult.fail =
        ArticleResponse.ok r) ∧
    (¬ pyStrip ((some "http://e.com").getD "") = "" →
      fetch_article (some "http://e.com") PrimaryResult.fail FallbackResult.fail =
        ArticleResponse.ok
          ⟨"", [], "", "", "", "", pyStrip ((some "http://e.com").getD "")⟩) :=
  c5_url_validation (some "http://e.com") PrimaryResult.fail FallbackResult.fail

/-- C9 counterexample: a url supplied with surrounding whitespace is echoed
back stripped, not exactly as supplied. -/
theorem c9_counterexample :
    fetch_article (some " http://e.com ") PrimaryResult.fail FallbackResult.fail =
      ArticleResponse.ok ⟨"", [], "", "", "", "", "http://e.com"⟩ ∧
    ¬ ("http://e.com" : String) = " http://e.com " := by
  constructor
  · decide
  · decide

/-- C9 (amended): for every request that is not rejected with a 400 error,
`source_url` equals the supplied url with leading and trailing whitespace
trimmed (hence equals the input exactly only when the input carries no
surrounding whitespace). -/
theorem c9_amended_source_url (u : Option String) (prim : PrimaryResult) (fb : FallbackResult)
    (hu : ¬ pyStrip (u.getD "") = "") :
    ∃ r, fetch_article u prim fb = ArticleResponse.ok r ∧
      r.source_url = pyStrip (u.getD "") :=
  ⟨_, fetch_article_ok u prim fb hu, rfl⟩

/-- C9 witness at a whitespace-carrying concrete url. -/
theorem c9_amended_source_url_witness :
    ∃ r, fetch_article (some " http://e.com ") PrimaryResult.fail FallbackResult.fail =
        ArticleResponse.ok r ∧
      r.source_url = pyStrip ((some " http://e.com ").getD "") :=
  c9_amended_source_url (some " http://e.com ") PrimaryResult.fail FallbackResult.fail
    (by decide)

/-- C3: the fallback runs iff the primary text is shorter than 100
characters; when it ran and succeeded its text is adopted iff strictly
longer than the primary text (tie or shorter keeps the primary text), and a
failed or skipped fallback keeps the primary text. -/
theorem c3_fallback_text_policy (u : Option String) (prim : PrimaryResult) (fb : FallbackResult)
    (hu : ¬ pyStrip (u.getD "") = "") :
    ∃ r, fetch_article u prim fb = ArticleResponse.ok r ∧
      (100 ≤ (runPrimary prim).text.length → r.text = (runPrimary prim).text) ∧
      (∀ d, fb = FallbackResult.ok d → (runPrimary prim).text.length < 100 →
        ((runPrimary prim).text.length < (pyStrip d.soup.text).length →
          r.text = pyStrip d.soup.text) ∧
        ((pyStrip d.soup.text).length ≤ (runPrimary prim).text.length →
          r.text = (runPrimary prim).text)) ∧
      (fb = FallbackResult.fail → r.text = (runPrimary prim).text) := by
  refine ⟨_, fetch_article_ok u prim fb hu, ?_, ?_, ?_⟩
  · intro h100
    exact (afterStrategies_text prim fb).1 h100
  · intro d hd hlt
    exact (afterStrategies_text prim fb).2.1 d hd hlt
  · intro hf
    exact (afterStrategies_text prim fb).2.2 hf

/-- C3 witness: empty primary text, fallback succeeds with longer text. -/
theorem c3_fallback_text_policy_witness :
    ∃ r, fetch_article (some "http://e.com") PrimaryResult.fail
        (FallbackResult.ok relImgFallback) = ArticleResponse.ok r ∧
      (100 ≤ (runPrimary PrimaryResult.fail).text.length →
        r.text = (runPrimary PrimaryResult.fail).text) ∧
      (∀ d, FallbackResult.ok relImgFallback = FallbackResult.ok d →
        (runPrimary PrimaryResult.fail).text.length < 100 →
        ((runPrimary PrimaryResult.fail).text.length < (pyStrip d.soup.text).length →
          r.text = pyStrip d.soup.text) ∧
        ((pyStrip d.soup.text).length ≤ (runPrimary PrimaryResult.fail).text.length →
          r.text = (runPrimary PrimaryResult.fail).text)) ∧
      (FallbackResult.ok relImgFallback = FallbackResult.fail →
        r.text = (runPrimary PrimaryResult.fail).text) :=
  c3_fallback_text_policy (some "http://e.com") PrimaryResult.fail
    (FallbackResult.ok relImgFallback) (by decide)

/-- C2 counterexample: the fallback HTML's first img-with-src has the
non-http src "/relative.png" and a later img has "http://img.example/a.png";
the claim demands the latter be adopted, but the code adopts no image at
all: `top_image` stays empty. -/
theorem c2_counterexample :
    fetch_article (some "http://e.com") PrimaryResult.fail
        (FallbackResult.ok relImgFallback) =
      ArticleResponse.ok ⟨"Fallback Title", [], "", "", "Recovered body text",
        "<div>recovered</div>", "http://e.com"⟩ ∧
    ¬ ("" : String) = "http://img.example/a.png" := by
  constructor
  · decide
  · decide

/-- C2 (amended): when the fallback text wins and no lead image was set by
the primary strategy, the handler inspects only the *first* image element
that has a source attribute: its src is adopted iff it begins with "http";
an earlier image element with a non-http src means no image is adopted. -/
theorem c2_amended_first_img_src (u : Option String) (prim : PrimaryResult) (d : FallbackData)
    (hu : ¬ pyStrip (u.getD "") = "")
    (hrun : (runPrimary prim).text.length < 100)
    (hwin : (runPrimary prim).text.length < (pyStrip d.soup.text).length)
    (himg : (runPrimary prim).top_image = "") :
    ∃ r, fetch_article u prim (FallbackResult.ok d) = ArticleResponse.ok r ∧
      r.top_image =
        (match findImgSrc d.soup.imgs with
         | some src => if pyStartsWith src "http" then src else ""
         | none => "") := by
  refine ⟨_, fetch_article_ok u prim (FallbackResult.ok d) hu, ?_⟩
  show (afterStrategies prim (FallbackResult.ok d)).top_image = _
  unfold afterStrategies
  rw [if_pos hrun]
  exact runFallback_top_image_win _ _ hwin himg

/-- C2 witness at the concrete two-image fallback. -/
theorem c2_amended_first_img_src_witness :
    ∃ r, fetch_article (some "http://e.com") PrimaryResult.fail
        (FallbackResult.ok relImgFallback) = ArticleResponse.ok r ∧
      r.top_image =
        (match findImgSrc relImgFallback.soup.imgs with
         | some src => if pyStartsWith src "http" then src else ""
         | none => "") :=
  c2_amended_first_img_src (some "http://e.com") PrimaryResult.fail relImgFallback
    (by decide) (by decide) (by decide) (by decide)

/-- C4 counterexample: the primary strategy raises at the
`publish_date.isoformat()` call (line 131), the exception is caught, yet the
intermediate state is not entirely empty: text, title and authors keep the
values assigned before the failing step. -/
theorem c4_counterexample :
    primaryRaised (PrimaryResult.parsed midFailAttrs) = true ∧
    runPrimary (PrimaryResult.parsed midFailAttrs) =
      ⟨"A reasonably long extracted body.", "", "A Title", ["Alice"], "", ""⟩ ∧
    ¬ ("A reasonably long extracted body." : String) = "" := by
  refine ⟨rfl, ?_, by decide⟩
  decide

/-- C4 (amended): an exception inside the primary `try` never propagates;
if it occurs during download/parse (before any field assignment) the state
is entirely empty, while an exception at the publish-date conversion leaves
the already-assigned text, title and authors in place, with publish date,
top image (and html) still empty. -/
theorem c4_amended_partial_state (prim : PrimaryResult)
    (h : primaryRaised prim = true) :
    (runPrimary prim).publish_date = "" ∧ (runPrimary prim).top_image = "" ∧
    (runPrimary prim).html_content = "" ∧
    (prim = PrimaryResult.fail → runPrimary prim = initState) ∧
    (∀ a, prim = PrimaryResult.parsed a →
      runPrimary prim = { initState with
        text := pyStrip (a.text.getD "")
        title := a.title.getD ""
        authors := a.authors.getD [] }) := by
  cases prim with
  | fail =>
    refine ⟨rfl, rfl, rfl, fun _ => rfl, ?_⟩
    intro a ha
    cases ha
  | parsed a =>
    have hpd : a.publish_date = some PubVal.bad := by
      simp only [primaryRaised] at h
      rcases hp : a.publish_date with _ | pv
      · rw [hp] at h
        simp at h
      · cases pv with
        | date iso =>
          rw [hp] at h
          simp at h
        | bad => rfl
    simp only [runPrimary, hpd]
    refine ⟨rfl, rfl, rfl, ?_, ?_⟩
    · intro hfa
      cases hfa
    · intro b hb
      cases hb
      rfl

/-- C4 witness at the concrete mid-assignment failure. -/
theorem c4_amended_partial_state_witness :
    (runPrimary (PrimaryResult.parsed midFailAttrs)).publish_date = "" ∧
    (runPrimary (PrimaryResult.parsed midFailAttrs)).top_image = "" ∧
    (runPrimary (PrimaryResult.parsed midFailAttrs)).html_content = "" ∧
    (PrimaryResult.parsed midFailAttrs = PrimaryResult.fail →
      runPrimary (PrimaryResult.parsed midFailAttrs) = initState) ∧
    (∀ a, PrimaryResult.parsed midFailAttrs = PrimaryResult.parsed a →
      runPrimary (PrimaryResult.parsed midFailAttrs) = { initState with
        text := pyStrip (a.text.getD "")
        title := a.title.getD ""
        authors := a.authors.getD [] }) :=
  c4_amended_partial_state (PrimaryResult.parsed midFailAttrs) rfl

/-- C8 counterexample: on the text "a \n\nb" the code wraps the *trimmed*
segments, yielding "<p>a</p><p>b</p>", while wrapping the surviving segments
as split (the claim's words) would yield "<p>a </p><p>b</p>". -/
theorem c8_counterexample :
    fetch_article (some "http://e.com") (PrimaryResult.parsed shortAttrs)
        FallbackResult.fail =
      ArticleResponse.ok ⟨"", [], "", "", "a \n\nb", "<p>a</p><p>b</p>",
        "http://e.com"⟩ ∧
    claimed_build_html "a \n\nb" = "<p>a </p><p>b</p>" ∧
    ¬ ("<p>a</p><p>b</p>" : String) = "<p>a </p><p>b</p>" := by
  refine ⟨?_, ?_, ?_⟩
  · decide
  · decide
  · decide

/-- C8 (amended): when after both strategies there is non-empty text but no
HTML, the result html is the concatenation, with no separator, of each
surviving segment of the blank-line split — *trimmed of leading and trailing
whitespace* — wrapped in a paragraph tag (empty and whitespace-only segments
discarded); when the text is empty the html is empty. -/
theorem c8_amended_html_synthesis (u : Option String) (prim : PrimaryResult)
    (fb : FallbackResult) (hu : ¬ pyStrip (u.getD "") = "") :
    ∃ r, fetch_article u prim fb = ArticleResponse.ok r ∧
      (¬ (afterStrategies prim fb).text = "" →
        (afterStrategies prim fb).html_content = "" →
        r.html = String.join (((pySplit (afterStrategies prim fb).text "\n\n").filterMap
          fun p => if pyStrip p = "" then none else some (pyStrip p)).map
            fun p => "<p>" ++ p ++ "</p>")) ∧
      ((afterStrategies prim fb).text = "" → r.html = "") := by
  refine ⟨_, fetch_article_ok u prim fb hu, ?_, ?_⟩
  · intro ht hh
    show (if ¬ (afterStrategies prim fb).text = "" ∧
        (afterStrategies prim fb).html_content = ""
      then build_html (afterStrategies prim fb).text
      else (afterStrategies prim fb).html_content) = _
    rw [if_pos ⟨ht, hh⟩]
    rfl
  · intro ht
    show (if ¬ (afterStrategies prim fb).text = "" ∧
        (afterStrategies prim fb).html_content = ""
      then build_html (afterStrategies prim fb).text
      else (afterStrategies prim fb).html_content) = ""
    rw [if_neg fun hc => hc.1 ht]
    exact afterStrategies_text_empty prim fb ht

/-- C8 witness at the concrete two-paragraph text. -/
theorem c8_amended_html_synthesis_witness :
    ∃ r, fetch_article (some "http://e.com") (PrimaryResult.parsed shortAttrs)
        FallbackResult.fail = ArticleResponse.ok r ∧
      (¬ (afterStrategies (PrimaryResult.parsed shortAttrs) FallbackResult.fail).text = "" →
        (afterStrategies (PrimaryResult.parsed shortAttrs) FallbackResult.fail).html_content
            = "" →
        r.html = String.join (((pySplit (afterStrategies (PrimaryResult.parsed shortAttrs)
            FallbackResult.fail).text "\n\n").filterMap
          fun p => if pyStrip p = "" then none else some (pyStrip p)).map
            fun p => "<p>" ++ p ++ "</p>")) ∧
      ((afterStrategies (PrimaryResult.parsed shortAttrs) FallbackResult.fail).text = "" →
        r.html = "") :=
  c8_amended_html_synthesis (some "http://e.com") (PrimaryResult.parsed shortAttrs)
    FallbackResult.fail (by decide)

end VaultFeed
